import Mathlib

/-!
Verification of the generation-resilience layer of the opal-adk repository:
the structured error taxonomy (`error_handling/opal_adk_error.py`), the
image model-fallback orchestrator
(`tools/generate/generate_utils/vertex_generate_image.py`), the video
submission/fallback loop and LRO poller
(`tools/generate/generate_utils/vertex_generate_video.py`), and the Gemini
image response pipeline
(`tools/generate/generate_utils/gemini_generate_image.py`).

Python values are embedded shallowly: bytes become `List Nat`, optional
fields become `Option`, raised exceptions become `Except` error results,
and the vendor SDK call is abstracted as an explicit `attempt`/`submit`
function argument, exactly as the spec's orchestrator contract describes.
-/

namespace OpalAdk

/-- The RPC status codes of `google.rpc.code_pb2` used by the repository
(the spec's fixed code set). -/
inductive Code where
  | OK
  | UNKNOWN
  | INVALID_ARGUMENT
  | FAILED_PRECONDITION
  | RESOURCE_EXHAUSTED
  | UNAVAILABLE
  | INTERNAL
  deriving DecidableEq, Repr

/-- `code_pb2.Code.Name`: the wire name of a status code. -/
def Code.pbName : Code → String
  | .OK => "OK"
  | .UNKNOWN => "UNKNOWN"
  | .INVALID_ARGUMENT => "INVALID_ARGUMENT"
  | .FAILED_PRECONDITION => "FAILED_PRECONDITION"
  | .RESOURCE_EXHAUSTED => "RESOURCE_EXHAUSTED"
  | .UNAVAILABLE => "UNAVAILABLE"
  | .INTERNAL => "INTERNAL"

/-- `opal_adk_error.GENERIC_ERROR_MESSAGE` (leading space as in the source). -/
def GENERIC_ERROR_MESSAGE : String :=
  " An unexpected internal error occurred. Please try again."

/-- `opal_adk_error.GENERIC_MODEL_ERROR_MESSAGE`. -/
def GENERIC_MODEL_ERROR_MESSAGE : String :=
  " An unexpected error occurred while calling the model. Please try again."

/-- `opal_adk_error.SAFETY_ERROR_MESSAGE`. -/
def SAFETY_ERROR_MESSAGE : String :=
  " Unable to generate response, generated content may violate safety" ++
  " policies. Please try again with a different prompt."

/-- The field state of `opal_adk_error.OpalAdkError` (the spec's
StructuredError): status message, RPC code, external details and
internal-only details.  The `logged` constructor argument only feeds the
log line / `internal_details` under a non-production environment, so the
production field state is embedded directly. -/
structure OpalAdkError where
  status_message : String
  error_code : Code
  details : String
  internal_details : String
  deriving DecidableEq, Repr

/-- Lower-case hex digit, used by the JSON escape of control characters. -/
def hex_digit (n : Nat) : Char :=
  if n < 10 then Char.ofNat (48 + n) else Char.ofNat (87 + n)

/-- JSON string escape of one character, as `json.dumps` renders the ASCII
range (quote, backslash, the common control escapes, `\u00XX` for the
rest of the control block). -/
def json_escape_char (c : Char) : String :=
  if c = '"' then "\\\""
  else if c = '\\' then "\\\\"
  else if c = '\n' then "\\n"
  else if c = '\t' then "\\t"
  else if c = '\r' then "\\r"
  else if c.toNat < 32 then
    "\\u00" ++ String.mk [hex_digit (c.toNat / 16), hex_digit (c.toNat % 16)]
  else String.singleton c

/-- JSON string escape, character by character. -/
def json_escape (s : String) : String :=
  String.join (s.data.map json_escape_char)

/-- `OpalAdkError.external_message`: `json.dumps` of exactly the dict
`\x7b'code': Code.Name(error_code), 'message': status_message,
'details': details\x7d`. -/
def external_message (e : OpalAdkError) : String :=
  "\x7b\"code\": \"" ++ json_escape e.error_code.pbName ++
  "\", \"message\": \"" ++ json_escape e.status_message ++
  "\", \"details\": \"" ++ json_escape e.details ++ "\"\x7d"

/-- The exception values that can cross the vendor boundary in the
generation paths: an already-structured `OpalAdkError` (with the `str(e)`
text Python would show for it), the retriable `api_core` exception types,
the `google.genai` client/server errors, and any other exception carrying
its text. -/
inductive Exn where
  | opal (e : OpalAdkError) (text : String)
  | tooManyRequests (text : String)
  | resourceExhausted (text : String)
  | retryError (text : String)
  | genaiServerError (text : String)
  | genaiClientError (code : Code) (text : String)
  | other (text : String)
  deriving DecidableEq, Repr

/-- The `str(e)` text of an exception. -/
def exn_str : Exn → String
  | .opal _ text => text
  | .tooManyRequests text => text
  | .resourceExhausted text => text
  | .retryError text => text
  | .genaiServerError text => text
  | .genaiClientError _ text => text
  | .other text => text

/-- Membership of an exception in `RETRIABLE_RESPONSE_ERRORS =
(TooManyRequests, ResourceExhausted, RetryError, genai_errors.ServerError)`,
the tuple both generation modules match with `except`. -/
def is_retriable_type : Exn → Bool
  | .tooManyRequests _ => true
  | .resourceExhausted _ => true
  | .retryError _ => true
  | .genaiServerError _ => true
  | _ => false

/-- Whether `sub` occurs as a contiguous substring of the character list,
the semantics of Python's `sub in s`. -/
def chars_have_sub (sub : List Char) : List Char → Bool
  | [] => sub.isEmpty
  | c :: rest => sub.isPrefixOf (c :: rest) || chars_have_sub sub rest

/-- Python's `sub in s` on strings. -/
def str_contains (s sub : String) : Bool :=
  chars_have_sub sub.data s.data

/-- `opal_adk_error.get_opal_adk_error`: normalize any exception into an
`OpalAdkError`.  An `OpalAdkError` passes through unchanged; a genai
client error with a resource-exhaustion code maps to RESOURCE_EXHAUSTED
with the fixed higher-load message; other genai client errors and genai
server errors map to INTERNAL with the generic model message; anything
else maps to the default `OpalAdkError()` field state (UNKNOWN, generic
message). -/
def get_opal_adk_error : Exn → OpalAdkError
  | .opal e _ => e
  | .genaiClientError code text =>
      if code = Code.RESOURCE_EXHAUSTED then
        { status_message :=
            "The system is experiencing higher load than usual. Please try" ++
            " again later.",
          error_code := Code.RESOURCE_EXHAUSTED,
          details := "",
          internal_details := text }
      else
        { status_message := GENERIC_MODEL_ERROR_MESSAGE,
          error_code := Code.INTERNAL,
          details := "",
          internal_details := text }
  | .genaiServerError text =>
      { status_message := GENERIC_MODEL_ERROR_MESSAGE,
        error_code := Code.INTERNAL,
        details := "",
        internal_details := text }
  | .tooManyRequests _ | .resourceExhausted _ | .retryError _ | .other _ =>
      { status_message := GENERIC_ERROR_MESSAGE,
        error_code := Code.UNKNOWN,
        details := "",
        internal_details := "" }

/-- The `genai.types.Image` payload inside a generated image: optional raw
bytes and optional mime type (Python `None` / empty are both falsy, so the
embedding keeps `[]` / `""` for the absent cases the code tests with
truthiness). -/
structure ImagePayload where
  image_bytes : List Nat
  mime_type : String
  deriving DecidableEq, Repr

/-- `genai.types.GeneratedImage`: an optional image payload. -/
structure GeneratedImage where
  image : Option ImagePayload
  deriving DecidableEq, Repr

/-- The fixed error of `vertex_generate_image` when no image comes back:
INTERNAL, "No images generated.", with the invalid-or-policy-violating
hint as details. -/
def no_images_error : OpalAdkError :=
  { status_message := "No images generated.",
    error_code := Code.INTERNAL,
    details := "This may indicate an invalid or policy violating prompt.",
    internal_details := "" }

/-- `vertex_generate_image._image_bytes_from_generated_image`: the bytes and
mime type of a generated image (mime type defaulting to `image/png`), or
the fixed no-images error when the image or its bytes are absent. -/
def _image_bytes_from_generated_image (g : GeneratedImage) :
    Except OpalAdkError (List Nat × String) :=
  match g.image with
  | some img =>
      if img.image_bytes ≠ [] then
        .ok (img.image_bytes,
             if img.mime_type = "" then "image/png" else img.mime_type)
      else .error no_images_error
  | none => .error no_images_error

/-- Retriability as the fallback loops' exception handlers decide it: the
`RETRIABLE_RESPONSE_ERRORS` tuple, or the broad handler's
`'RESOURCE_EXHAUSTED' in str(e)` marker test (both generation modules use
the same two handlers). -/
def retriable_type_or_marker (e : Exn) : Bool :=
  is_retriable_type e || str_contains (exn_str e) "RESOURCE_EXHAUSTED"

/-- The candidate loop of
`vertex_generate_image.generate_image_via_genai_api`, generic in the
candidate chain and in the per-candidate vendor call `attempt` (one call
of `client.models.generate_images` per candidate).  Besides the final
outcome it returns the number of vendor calls made.  Per candidate: a
non-empty image list returns `_image_bytes_from_generated_image` of its
first element (an `OpalAdkError` raised there reaches the caller
unchanged, since the broad handler re-raises `get_opal_adk_error(e) = e`
for it and its text carries no RESOURCE_EXHAUSTED marker); an empty list
falls through with `last_exception` untouched; a retriable exception
(by type or by text marker) is recorded as `last_exception` and the loop
continues; any other exception aborts with its classification.  On
exhaustion the recorded `last_exception` is classified, or the fixed
no-images error is raised when none was recorded. -/
def image_fallback_loop (attempt : String → Except Exn (List GeneratedImage)) :
    List String → Option Exn →
    (Except OpalAdkError (List Nat × String)) × Nat
  | [], last =>
      (match last with
       | some e => .error (get_opal_adk_error e)
       | none => .error no_images_error, 0)
  | m :: rest, last =>
      match attempt m with
      | .ok [] =>
          let r := image_fallback_loop attempt rest last
          (r.1, r.2 + 1)
      | .ok (g :: _) => (_image_bytes_from_generated_image g, 1)
      | .error e =>
          if retriable_type_or_marker e then
            let r := image_fallback_loop attempt rest (some e)
            (r.1, r.2 + 1)
          else (.error (get_opal_adk_error e), 1)

/-- The fixed Imagen fallback chain of `generate_image_via_genai_api`:
`[Models.IMAGEN_3, Models.IMAGEN_3_FAST]`. -/
def model_imagen_3_fallbacks : List String :=
  ["imagen-3.0-generate-002", "imagen-3.0-fast-generate-001"]

/-- `generate_image_via_genai_api`, with the vendor call abstracted: the
candidate loop over the fixed Imagen chain starting with no recorded
exception. -/
def generate_image_via_genai_api
    (attempt : String → Except Exn (List GeneratedImage)) :
    Except OpalAdkError (List Nat × String) :=
  (image_fallback_loop attempt model_imagen_3_fallbacks none).1

/-- The recorded `last_exception` after the image candidate loop has run a
chain to exhaustion: the exception of the last candidate that raised a
retriable error (non-raising candidates leave it untouched). -/
def image_last_exception
    (attempt : String → Except Exn (List GeneratedImage)) :
    List String → Option Exn → Option Exn
  | [], last => last
  | m :: rest, last =>
      match attempt m with
      | .ok _ => image_last_exception attempt rest last
      | .error e =>
          if retriable_type_or_marker e then
            image_last_exception attempt rest (some e)
          else image_last_exception attempt rest last

/-- A candidate outcome on which the image loop continues to the next
candidate: an explicitly empty result, or a retriable exception. -/
def image_attempt_continues (r : Except Exn (List GeneratedImage)) : Prop :=
  r = .ok [] ∨ ∃ e, r = .error e ∧ retriable_type_or_marker e = true

/-- `image_types.AspectRatio`: the aspect ratios accepted by the generation
entry points. -/
inductive AspectRatio where
  | RATIO_16_9
  | RATIO_1_1
  | RATIO_3_4
  | RATIO_4_3
  | RATIO_9_16
  deriving DecidableEq, Repr

/-- The `.value` string of an `image_types.AspectRatio` member. -/
def AspectRatio.value : AspectRatio → String
  | .RATIO_16_9 => "16:9"
  | .RATIO_1_1 => "1:1"
  | .RATIO_3_4 => "3:4"
  | .RATIO_4_3 => "4:3"
  | .RATIO_9_16 => "9:16"

/-- `image_types.ImageSafetyLevel`. -/
inductive ImageSafetyLevel where
  | BLOCK_FEW
  | BLOCK_FEWEST
  | BLOCK_MOST
  | BLOCK_SOME
  deriving DecidableEq, Repr

/-- The `.value` string of an `image_types.ImageSafetyLevel` member. -/
def ImageSafetyLevel.value : ImageSafetyLevel → String
  | .BLOCK_FEW => "block_few"
  | .BLOCK_FEWEST => "block_fewest"
  | .BLOCK_MOST => "block_most"
  | .BLOCK_SOME => "block_some"

/-- The `genai.types.GenerateImagesConfig` built by
`generate_image_via_genai_api` for each Imagen candidate. -/
structure GenerateImagesConfig where
  number_of_images : Nat
  language : String
  aspect_ratio : String
  safety_filter_level : Option String
  deriving DecidableEq, Repr

/-- The config constructed inside `generate_image_via_genai_api`:
one image, English, the caller's aspect ratio value verbatim, and the
optional safety level's value (the source also fixes
`person_generation='allow_all'`). -/
def imagen_generate_config (aspect_ratio : AspectRatio)
    (image_safety_level : Option ImageSafetyLevel) : GenerateImagesConfig :=
  { number_of_images := 1,
    language := "en",
    aspect_ratio := aspect_ratio.value,
    safety_filter_level := image_safety_level.map (fun l => l.value) }

/-- `dict.fromkeys`-style deduplication with an explicit seen accumulator:
keeps an element only at its first occurrence, in order.  This is the
`fall_backs = list(dict.fromkeys(fall_backs))` step of
`vertex_generate_video._generate_video_impl`. -/
def dedup_preserving_order_aux (seen : List String) :
    List String → List String
  | [] => []
  | x :: xs =>
      if x ∈ seen then dedup_preserving_order_aux seen xs
      else x :: dedup_preserving_order_aux (x :: seen) xs

/-- Deduplicate a candidate chain preserving first occurrences. -/
def dedup_preserving_order (l : List String) : List String :=
  dedup_preserving_order_aux [] l

/-- The index of the first occurrence of `x` in a list (length of the list
when absent). -/
def first_index (x : String) : List String → Nat
  | [] => 0
  | y :: ys => if y = x then 0 else first_index x ys + 1

/-- `Models.VEO_3.value`. -/
def VEO_3 : String := "veo-3.0-generate-preview"

/-- `Models.VEO_3_FAST.value`. -/
def VEO_3_FAST : String := "veo-3.0-fast-generate-preview"

/-- The deduplicated video fallback chain of `_generate_video_impl`:
the caller's model first, then VEO_3 and VEO_3_FAST, first occurrences
kept in order. -/
def video_fall_backs (model_name : String) : List String :=
  dedup_preserving_order [model_name, VEO_3, VEO_3_FAST]

/-- A video returned inside an operation response: raw bytes and mime
type. -/
structure VideoPayload where
  video_bytes : List Nat
  mime_type : String
  deriving DecidableEq, Repr

/-- One entry of `operation.response.generated_videos`: its `video` field
may be absent. -/
structure GeneratedVideo where
  video : Option VideoPayload
  deriving DecidableEq, Repr

/-- `operation.response`: the generated videos and the RAI media filter
reasons. -/
structure OperationResponse where
  generated_videos : List GeneratedVideo
  rai_media_filtered_reasons : List String
  deriving DecidableEq, Repr

/-- `operation.error`: a dict with optional `code` and `message` keys, read
with `.get` and a default. -/
structure OperationError where
  code : Option Code
  message : Option String
  deriving DecidableEq, Repr

/-- A video LRO handle: `done` flag, optional error payload, optional
response payload. -/
structure Operation where
  done : Bool
  error : Option OperationError
  response : Option OperationResponse
  deriving DecidableEq, Repr

/-- The fixed error `_generate_video_impl` raises both when a submission
attempt fails non-retriably and when the loop exhausts the chain without
an operation: INTERNAL, 'Failed to initiate video request.'. -/
def failed_to_initiate_error : OpalAdkError :=
  { status_message := "Failed to initiate video request.",
    error_code := Code.INTERNAL,
    details := "Internal error occurred.",
    internal_details := "" }

/-- The submission loop of `_generate_video_impl`, generic in the
per-candidate `submit` call (`client.models.generate_videos`).  A
successful submission breaks out with the operation; a retriable
exception (type or RESOURCE_EXHAUSTED text marker) continues to the next
candidate without recording anything; any other exception raises the
fixed initiate error; exhausting the chain leaves `operation = None`,
which raises the same fixed error. -/
def video_submit_loop (submit : String → Except Exn Operation) :
    List String → Except OpalAdkError Operation
  | [] => .error failed_to_initiate_error
  | m :: rest =>
      match submit m with
      | .ok op => .ok op
      | .error e =>
          if is_retriable_type e then video_submit_loop submit rest
          else if str_contains (exn_str e) "RESOURCE_EXHAUSTED" then
            video_submit_loop submit rest
          else .error failed_to_initiate_error

/-- The polling loop of `_generate_video_impl`
(`while not operation.done: sleep(3); operation = operations.get(...)`)
over an explicit sequence of re-fetched operation states: the first state
whose `done` flag is set, or `none` when the sequence runs out before the
operation completes (the source would still be polling). -/
def video_poll_loop : Operation → List Operation → Option Operation
  | op, refetches =>
      if op.done then some op
      else
        match refetches with
        | [] => none
        | next :: rest => video_poll_loop next rest

/-- The fixed no-asset error of `_generate_video_impl`: INTERNAL,
'No videos generated by Veo Vertex backend.', empty details. -/
def no_videos_backend_error : OpalAdkError :=
  { status_message := "No videos generated by Veo Vertex backend.",
    error_code := Code.INTERNAL,
    details := "",
    internal_details := "" }

/-- The response check at the end of `_generate_video_impl`, applied to the
completed operation.  An error payload raises with the payload's code
(default INTERNAL), a status message 'No videos generated: <message>.'
and the payload's message as details (default 'Unknown error').
Otherwise the first generated video's payload is returned; when the first
entry has no video payload and filter reasons exist, INVALID_ARGUMENT is
raised with the first reason as details; in every remaining no-payload
case (including an entirely empty `generated_videos` list) the fixed
backend no-videos INTERNAL error is raised. -/
def video_check_response (op : Operation) :
    Except OpalAdkError (List Nat × String) :=
  match op.error with
  | some err =>
      .error
        { status_message :=
            "No videos generated: " ++ err.message.getD "Unknown error" ++ ".",
          error_code := err.code.getD Code.INTERNAL,
          details := err.message.getD "Unknown error",
          internal_details := "" }
  | none =>
      match op.response with
      | some resp =>
          match resp.generated_videos with
          | gv :: _ =>
              match gv.video with
              | some v => .ok (v.video_bytes, v.mime_type)
              | none =>
                  match resp.rai_media_filtered_reasons with
                  | r :: _ =>
                      .error
                        { status_message := "No videos generated.",
                          error_code := Code.INVALID_ARGUMENT,
                          details := r,
                          internal_details := "" }
                  | [] => .error no_videos_backend_error
          | [] => .error no_videos_backend_error
      | none => .error no_videos_backend_error

/-- The `genai.types.GenerateVideosConfig` built per candidate inside
`_generate_video_impl` (reference images elided: no claim concerns
them). -/
structure GenerateVideosConfig where
  aspect_ratio : String
  person_generation : String
  enhance_prompt : String
  duration_seconds : Nat
  deriving DecidableEq, Repr

/-- The per-candidate video config of `_generate_video_impl`: the aspect
ratio value it was handed, fixed adult person generation, prompt
enhancement toggled by `disable_prompt_rewrite`, the caller's duration. -/
def video_candidate_config (aspect_ratio : AspectRatio)
    (disable_prompt_rewrite : Bool) (duration_seconds : Nat) :
    GenerateVideosConfig :=
  { aspect_ratio := aspect_ratio.value,
    person_generation := "allow_adult",
    enhance_prompt := if disable_prompt_rewrite then "no" else "yes",
    duration_seconds := duration_seconds }

/-- The aspect-ratio coercion at the top of `generate_video_via_vertex_ai`:
anything other than 16:9 or 9:16 is replaced by 16:9 before
`_generate_video_impl` runs. -/
def video_entry_aspect_ratio (aspect_ratio : AspectRatio) : AspectRatio :=
  if aspect_ratio = AspectRatio.RATIO_16_9 ∨
      aspect_ratio = AspectRatio.RATIO_9_16 then aspect_ratio
  else AspectRatio.RATIO_16_9

/-- The config `generate_video_via_vertex_ai` causes `_generate_video_impl`
to build for a candidate: the entry-point coercion applied to the
caller's aspect ratio, then the per-candidate config. -/
def generate_video_entry_config (aspect_ratio : AspectRatio)
    (disable_prompt_rewrite : Bool) (duration_seconds : Nat) :
    GenerateVideosConfig :=
  video_candidate_config (video_entry_aspect_ratio aspect_ratio)
    disable_prompt_rewrite duration_seconds

/-- An inline-data blob of a response part: raw bytes and an optional mime
type. -/
structure Blob where
  data : List Nat
  mime_type : Option String
  deriving DecidableEq, Repr

/-- A `genai.types.Part` of a response candidate's content: optional text
and optional inline data. -/
structure ResponsePart where
  text : Option String
  inline_data : Option Blob
  deriving DecidableEq, Repr

/-- Python truthiness of `part.text`: present and non-empty. -/
def part_text_truthy (t : Option String) : Bool :=
  match t with
  | some s => s ≠ ""
  | none => false

/-- A candidate's `content`: its parts (`None` and `[]` both fail the
`not content.parts` truthiness test, embedded as the empty list). -/
structure ResponseContent where
  parts : List ResponsePart
  deriving DecidableEq, Repr

/-- A response candidate's finish reason, as far as the recitation check
distinguishes it: verbatim recitation, or anything else. -/
inductive FinishReason where
  | RECITATION
  | OTHER
  deriving DecidableEq, Repr

/-- One candidate of a `GenerateContentResponse`. -/
structure ResponseCandidate where
  content : Option ResponseContent
  finish_reason : Option FinishReason
  deriving DecidableEq, Repr

/-- A `genai.types.GenerateContentResponse`: its candidates. -/
structure GenerateContentResponse where
  candidates : List ResponseCandidate
  deriving DecidableEq, Repr

/-- The fixed safe policy error the recitation check raises: INTERNAL with
the repository's safety message (content may violate policy). -/
def recitation_error : OpalAdkError :=
  { status_message := SAFETY_ERROR_MESSAGE,
    error_code := Code.INTERNAL,
    details := "",
    internal_details := "" }

/-- Modelled from the spec: the body of
`gemini_utils.validate_candidate_recitation` is not among the
repository's files (only its call site in `gemini_generate_image.py` is).
Per the spec's recitation-validation contract, for every candidate in a
response whose finish reason indicates verbatim recitation, raise
INTERNAL with a fixed safe message before any media or text is handed
back. -/
def validate_candidate_recitation (resp : GenerateContentResponse) :
    Except OpalAdkError Unit :=
  if resp.candidates.any
      (fun c => c.finish_reason = some FinishReason.RECITATION) then
    .error recitation_error
  else .ok ()

/-- The `image_config` of a `genai.types.GenerateContentConfig`. -/
structure ImageConfig where
  aspect_ratio : String
  deriving DecidableEq, Repr

/-- The `genai.types.GenerateContentConfig` built by
`gemini_generate_images` (safety settings elided: no claim concerns
them). -/
structure GenerateContentConfig where
  response_modalities : List String
  image_config : ImageConfig
  deriving DecidableEq, Repr

/-- The config constructed inside `gemini_generate_images`: TEXT+IMAGE
modalities and the caller's aspect ratio value verbatim in the image
config. -/
def gemini_image_config (aspect_ratio : AspectRatio) :
    GenerateContentConfig :=
  { response_modalities := ["TEXT", "IMAGE"],
    image_config := { aspect_ratio := aspect_ratio.value } }

/-- The error raised when the response has no candidates. -/
def no_candidates_error : OpalAdkError :=
  { status_message := "No candidates returned from Gemini API.",
    error_code := Code.INTERNAL,
    details := "",
    internal_details := "" }

/-- The error raised when the first candidate has no content parts. -/
def no_content_parts_error : OpalAdkError :=
  { status_message := "No content parts returned from Gemini API.",
    error_code := Code.INTERNAL,
    details := "",
    internal_details := "" }

/-- The no-image error of `gemini_generate_images`: INTERNAL, with any text
the model returned instead of images quoted in the details. -/
def gemini_no_images_error (text_parts : List String) : OpalAdkError :=
  let details :=
    if text_parts ≠ [] then
      "Gemini returned the following text instead of image(s): " ++
      String.intercalate " " text_parts
    else ""
  { status_message := "No images generated.",
    error_code := Code.INTERNAL,
    details := details,
    internal_details := "gemini_generate_image: " ++ details }

/-- The response-processing pipeline of `gemini_generate_images`, applied
to the vendor response: reject an empty candidate list, then a first
candidate with no content or no parts, then run the recitation check,
then collect the inline-data parts `(data, mime_type)` and the truthy
text parts; with no image parts raise the no-image error (quoting the
text parts), otherwise return the image parts. -/
def gemini_image_response_pipeline (resp : GenerateContentResponse) :
    Except OpalAdkError (List (List Nat × Option String)) :=
  match resp.candidates with
  | [] => .error no_candidates_error
  | c0 :: _ =>
      match c0.content with
      | none => .error no_content_parts_error
      | some content =>
          if content.parts = [] then .error no_content_parts_error
          else
            match validate_candidate_recitation resp with
            | .error e => .error e
            | .ok _ =>
                let image_parts := content.parts.filterMap
                  (fun p => p.inline_data.map (fun b => (b.data, b.mime_type)))
                let text_parts := content.parts.filterMap
                  (fun p =>
                    if part_text_truthy p.text then p.text else none)
                if image_parts = [] then
                  .error (gemini_no_images_error text_parts)
                else .ok image_parts

/-- C6: `external_message` serializes exactly the code/message/details
triple, so two errors that agree on status code, status message and
details produce identical external output whatever their
`internal_details`; internal details never cross the external
boundary. -/
theorem external_message_ignores_internal_details
    (e1 e2 : OpalAdkError)
    (hcode : e1.error_code = e2.error_code)
    (hmsg : e1.status_message = e2.status_message)
    (hdet : e1.details = e2.details) :
    external_message e1 = external_message e2 := by
  simp only [external_message, hcode, hmsg, hdet]

/-- Witness for C6: two concrete errors differing only in
`internal_details` have the same external message. -/
theorem external_message_ignores_internal_details_witness :
    external_message
        { status_message := "m", error_code := Code.INTERNAL,
          details := "d", internal_details := "secret diagnostic" }
      = external_message
        { status_message := "m", error_code := Code.INTERNAL,
          details := "d", internal_details := "" } :=
  external_message_ignores_internal_details _ _ rfl rfl rfl

/-- C7: the classifier is an idempotent passthrough on structured errors:
classifying an exception that is already an `OpalAdkError` returns that
error itself, all fields unchanged. -/
theorem get_opal_adk_error_idempotent (e : OpalAdkError) (text : String) :
    get_opal_adk_error (Exn.opal e text) = e := rfl

theorem mem_dedup_preserving_order_aux (l : List String) :
    ∀ seen x, x ∈ dedup_preserving_order_aux seen l ↔ x ∈ l ∧ x ∉ seen := by
  induction l with
  | nil => intro seen x; simp [dedup_preserving_order_aux]
  | cons z xs ih =>
      intro seen x
      by_cases hz : z ∈ seen
      · simp only [dedup_preserving_order_aux, if_pos hz, ih, List.mem_cons]
        constructor
        · rintro ⟨hx, hns⟩; exact ⟨Or.inr hx, hns⟩
        · rintro ⟨hx | hx, hns⟩
          · exact absurd (hx ▸ hz) hns
          · exact ⟨hx, hns⟩
      · simp only [dedup_preserving_order_aux, if_neg hz, List.mem_cons, ih,
          List.mem_cons, not_or]
        constructor
        · rintro (rfl | ⟨hx, hxz, hxs⟩)
          · exact ⟨Or.inl rfl, hz⟩
          · exact ⟨Or.inr hx, hxs⟩
        · rintro ⟨rfl | hx, hns⟩
          · exact Or.inl rfl
          · by_cases hxz : x = z
            · exact Or.inl hxz
            · exact Or.inr ⟨hx, hxz, hns⟩

theorem nodup_dedup_preserving_order_aux (l : List String) :
    ∀ seen, (dedup_preserving_order_aux seen l).Nodup := by
  induction l with
  | nil => intro seen; simp [dedup_preserving_order_aux]
  | cons z xs ih =>
      intro seen
      by_cases hz : z ∈ seen
      · simpa only [dedup_preserving_order_aux, if_pos hz] using ih seen
      · simp only [dedup_preserving_order_aux, if_neg hz]
        refine List.nodup_cons.mpr ⟨?_, ih (z :: seen)⟩
        intro hmem
        exact ((mem_dedup_preserving_order_aux xs (z :: seen) z).mp hmem).2
          (List.mem_cons_self z seen)

theorem sublist_dedup_preserving_order_aux (l : List String) :
    ∀ seen, List.Sublist (dedup_preserving_order_aux seen l) l := by
  induction l with
  | nil => intro seen; simp [dedup_preserving_order_aux]
  | cons z xs ih =>
      intro seen
      by_cases hz : z ∈ seen
      · simp only [dedup_preserving_order_aux, if_pos hz]
        exact (ih seen).cons z
      · simp only [dedup_preserving_order_aux, if_neg hz]
        exact (ih (z :: seen)).cons₂ z

theorem first_index_cons_ne (x z : String) (xs : List String) (h : x ≠ z) :
    first_index x (z :: xs) = first_index x xs + 1 := by
  simp [first_index, (Ne.symm h)]

theorem first_index_cons_self (z : String) (xs : List String) :
    first_index z (z :: xs) = 0 := by
  simp [first_index]

theorem first_index_dedup_preserving_order_aux (l : List String) :
    ∀ seen x y, x ∈ dedup_preserving_order_aux seen l →
      y ∈ dedup_preserving_order_aux seen l →
      (first_index x (dedup_preserving_order_aux seen l) <
        first_index y (dedup_preserving_order_aux seen l) ↔
       first_index x l < first_index y l) := by
  induction l with
  | nil =>
      intro seen x y hx
      simp [dedup_preserving_order_aux] at hx
  | cons z xs ih =>
      intro seen x y hx hy
      by_cases hz : z ∈ seen
      · simp only [dedup_preserving_order_aux, if_pos hz] at hx hy ⊢
        have hxz : x ≠ z := fun h =>
          ((mem_dedup_preserving_order_aux xs seen x).mp hx).2 (h ▸ hz)
        have hyz : y ≠ z := fun h =>
          ((mem_dedup_preserving_order_aux xs seen y).mp hy).2 (h ▸ hz)
        rw [first_index_cons_ne x z xs hxz, first_index_cons_ne y z xs hyz]
        have hIH := ih seen x y hx hy
        omega
      · simp only [dedup_preserving_order_aux, if_neg hz] at hx hy ⊢
        rcases List.mem_cons.mp hx with hxe | hx'
        · subst hxe
          rcases List.mem_cons.mp hy with hye | hy'
          · subst hye
            simp
          · have hyz : y ≠ x := fun h =>
              ((mem_dedup_preserving_order_aux xs (x :: seen) y).mp hy').2
                (h ▸ List.mem_cons_self x seen)
            rw [first_index_cons_self x, first_index_cons_self x,
              first_index_cons_ne y x _ hyz, first_index_cons_ne y x xs hyz]
            omega
        · have hxz : x ≠ z := fun h =>
            ((mem_dedup_preserving_order_aux xs (z :: seen) x).mp hx').2
              (h ▸ List.mem_cons_self z seen)
          rcases List.mem_cons.mp hy with hye | hy'
          · subst hye
            rw [first_index_cons_self y, first_index_cons_self y,
              first_index_cons_ne x y _ hxz, first_index_cons_ne x y xs hxz]
            omega
          · have hyz : y ≠ z := fun h =>
              ((mem_dedup_preserving_order_aux xs (z :: seen) y).mp hy').2
                (h ▸ List.mem_cons_self z seen)
            rw [first_index_cons_ne x z _ hxz, first_index_cons_ne y z _ hyz,
              first_index_cons_ne x z xs hxz, first_index_cons_ne y z xs hyz]
            have hIH := ih (z :: seen) x y hx' hy'
            omega

/-- C8: the candidate chain handed to the video fallback loop is the input
chain deduplicated preserving first occurrences, with the preferred model
as candidate one: `[A, A, B]` deduplicates to `[A, B]`; the chain built by
`_generate_video_impl` starts with the caller's model; and for every
input chain the result is duplicate-free, order-preserving (a sublist),
membership-preserving, and orders any two ids by their first occurrence
in the input. -/
theorem candidate_chain_dedup_first_occurrence :
    (∀ A B : String, A ≠ B → dedup_preserving_order [A, A, B] = [A, B])
    ∧ (∀ mn : String, (video_fall_backs mn).head? = some mn)
    ∧ ∀ l : List String,
        (dedup_preserving_order l).Nodup
        ∧ List.Sublist (dedup_preserving_order l) l
        ∧ (∀ x, x ∈ dedup_preserving_order l ↔ x ∈ l)
        ∧ ∀ x y, x ∈ l → y ∈ l →
            (first_index x (dedup_preserving_order l) <
              first_index y (dedup_preserving_order l) ↔
             first_index x l < first_index y l) := by
  refine ⟨?_, ?_, ?_⟩
  · intro A B hAB
    simp [dedup_preserving_order, dedup_preserving_order_aux,
      Ne.symm hAB]
  · intro mn
    simp [video_fall_backs, dedup_preserving_order,
      dedup_preserving_order_aux]
  · intro l
    have hmem : ∀ x, x ∈ dedup_preserving_order l ↔ x ∈ l := by
      intro x
      simpa using mem_dedup_preserving_order_aux l [] x
    refine ⟨nodup_dedup_preserving_order_aux l [],
      sublist_dedup_preserving_order_aux l [], hmem, ?_⟩
    intro x y hx hy
    exact first_index_dedup_preserving_order_aux l [] x y
      ((hmem x).mpr hx) ((hmem y).mpr hy)

/-- Witness for C8 at a concrete chain. -/
theorem candidate_chain_dedup_first_occurrence_witness :
    dedup_preserving_order ["a", "a", "b"] = ["a", "b"] :=
  candidate_chain_dedup_first_occurrence.1 "a" "b" (by decide)

/-- C5: when every candidate before position `i = pre.length` either raises
a retriable error or yields an empty result, and the candidate at `i`
yields a non-empty image list, the image orchestrator makes exactly
`i + 1` vendor calls and its outcome is that candidate's output (the
bytes/mime extraction of its first image); in particular a
first-candidate success (`pre = []`) makes exactly one call. -/
theorem image_fallback_first_success_calls
    (attempt : String → Except Exn (List GeneratedImage))
    (pre post : List String) (m : String) (g : GeneratedImage)
    (gs : List GeneratedImage) (last : Option Exn)
    (hpre : ∀ m' ∈ pre, image_attempt_continues (attempt m'))
    (hm : attempt m = .ok (g :: gs)) :
    image_fallback_loop attempt (pre ++ m :: post) last
      = (_image_bytes_from_generated_image g, pre.length + 1) := by
  induction pre generalizing last with
  | nil =>
      simp [image_fallback_loop, hm]
  | cons p ps ih =>
      have hrest : ∀ m' ∈ ps, image_attempt_continues (attempt m') :=
        fun m' hm' => hpre m' (List.mem_cons_of_mem p hm')
      rcases hpre p (List.mem_cons_self p ps) with hempty | ⟨e, herr, hret⟩
      · simp only [List.cons_append, image_fallback_loop, hempty,
          List.append_eq]
        rw [ih last hrest]
        simp [Nat.add_comm]
      · simp only [List.cons_append, image_fallback_loop, herr, hret,
          if_true, List.append_eq]
        rw [ih (some e) hrest]
        simp [Nat.add_comm]

/-- A concrete attempt function for the C5 witness: the first Imagen model
returns an empty result and the fallback returns one image. -/
def attempt_c5 : String → Except Exn (List GeneratedImage) :=
  fun m =>
    if m = "imagen-3.0-generate-002" then .ok []
    else .ok [{ image := some { image_bytes := [1, 2], mime_type := "image/png" } }]

/-- Witness for C5: on the source's two-model Imagen chain, with the first
candidate empty and the second succeeding, the loop returns the second
candidate's image after exactly two vendor calls. -/
theorem image_fallback_first_success_calls_witness :
    image_fallback_loop attempt_c5 model_imagen_3_fallbacks none
      = (.ok ([1, 2], "image/png"), 2) := by
  have h := image_fallback_first_success_calls attempt_c5
    ["imagen-3.0-generate-002"] [] "imagen-3.0-fast-generate-001"
    { image := some { image_bytes := [1, 2], mime_type := "image/png" } } []
    none
    (by
      intro m' hm'
      simp only [List.mem_singleton] at hm'
      subst hm'
      exact Or.inl rfl)
    rfl
  simpa [model_imagen_3_fallbacks, _image_bytes_from_generated_image] using h

theorem image_fallback_loop_exhaust
    (attempt : String → Except Exn (List GeneratedImage))
    (chain : List String) :
    ∀ last, (∀ m ∈ chain, image_attempt_continues (attempt m)) →
      (image_fallback_loop attempt chain last).1
        = match image_last_exception attempt chain last with
          | some e => .error (get_opal_adk_error e)
          | none => .error no_images_error := by
  induction chain with
  | nil =>
      intro last _
      cases last <;> simp [image_fallback_loop, image_last_exception]
  | cons m rest ih =>
      intro last h
      have hrest : ∀ m' ∈ rest, image_attempt_continues (attempt m') :=
        fun m' hm' => h m' (List.mem_cons_of_mem m hm')
      rcases h m (List.mem_cons_self m rest) with hempty | ⟨e, herr, hret⟩
      · simp only [image_fallback_loop, image_last_exception, hempty]
        exact ih last hrest
      · simp only [image_fallback_loop, image_last_exception, herr, hret,
          if_true]
        exact ih (some e) hrest

theorem image_last_exception_last_raiser
    (attempt : String → Except Exn (List GeneratedImage))
    (pre : List String) (m : String) (e : Exn)
    (herr : attempt m = .error e)
    (hret : retriable_type_or_marker e = true) :
    ∀ last, image_last_exception attempt (pre ++ [m]) last = some e := by
  induction pre with
  | nil =>
      intro last
      simp [image_last_exception, herr, hret]
  | cons p ps ih =>
      intro last
      cases hap : attempt p with
      | ok imgs => simpa [image_last_exception, hap] using ih last
      | error e' =>
          by_cases hr : retriable_type_or_marker e' = true
          · simpa [image_last_exception, hap, hr] using ih (some e')
          · simpa [image_last_exception, hap, hr] using ih last

/-- C1: when the image orchestrator exhausts a chain whose candidates all
raise retriable errors or yield empty results: if a retriable exception
was recorded as `last_exception`, the raised error is its classification
(and a retriable exception of the chain's last candidate is exactly what
is recorded, so when every candidate raises, the raised error is the
classification of the last candidate's exception); otherwise the fixed
generic INTERNAL no-images error is raised, whose details are the
non-empty invalid-or-policy-violating-prompt hint. -/
theorem image_fallback_exhaustion
    (attempt : String → Except Exn (List GeneratedImage))
    (chain : List String)
    (h : ∀ m ∈ chain, image_attempt_continues (attempt m)) :
    (∀ e, image_last_exception attempt chain none = some e →
        (image_fallback_loop attempt chain none).1
          = .error (get_opal_adk_error e))
    ∧ (∀ pre mlast e, chain = pre ++ [mlast] → attempt mlast = .error e →
        image_last_exception attempt chain none = some e)
    ∧ (image_last_exception attempt chain none = none →
        (image_fallback_loop attempt chain none).1 = .error no_images_error
        ∧ no_images_error.error_code = Code.INTERNAL
        ∧ no_images_error.details
            = "This may indicate an invalid or policy violating prompt."
        ∧ no_images_error.details ≠ "") := by
  refine ⟨?_, ?_, ?_⟩
  · intro e hlast
    rw [image_fallback_loop_exhaust attempt chain none h, hlast]
  · intro pre mlast e hchain herr
    have hmem : mlast ∈ chain := by
      rw [hchain]
      exact List.mem_append_right pre (List.mem_singleton.mpr rfl)
    rcases h mlast hmem with hempty | ⟨e', herr', hret'⟩
    · rw [herr] at hempty
      exact absurd hempty (by simp)
    · rw [herr] at herr'
      cases herr'
      rw [hchain]
      exact image_last_exception_last_raiser attempt pre mlast e herr hret' none
  · intro hnone
    refine ⟨?_, rfl, rfl, by decide⟩
    rw [image_fallback_loop_exhaust attempt chain none h, hnone]

/-- A concrete attempt function for the C1 witness: every candidate raises
a retriable resource-exhaustion error, the second candidate's being the
one recorded last. -/
def attempt_c1 : String → Except Exn (List GeneratedImage) :=
  fun m =>
    if m = "imagen-3.0-generate-002" then
      .error (Exn.tooManyRequests "429 first")
    else .error (Exn.resourceExhausted "quota exhausted")

/-- Witness for C1: on the source's Imagen chain with every candidate
raising retriably, the loop raises the classification of the last
candidate's exception. -/
theorem image_fallback_exhaustion_witness :
    (image_fallback_loop attempt_c1 model_imagen_3_fallbacks none).1
      = .error (get_opal_adk_error (Exn.resourceExhausted "quota exhausted")) := by
  have h := (image_fallback_exhaustion attempt_c1 model_imagen_3_fallbacks
    (by
      intro m hm
      simp only [model_imagen_3_fallbacks, List.mem_cons,
        List.mem_singleton] at hm
      rcases hm with rfl | rfl | hf
      · exact Or.inr ⟨Exn.tooManyRequests "429 first", rfl, rfl⟩
      · exact Or.inr ⟨Exn.resourceExhausted "quota exhausted", rfl, rfl⟩
      · cases hf)).1
    (Exn.resourceExhausted "quota exhausted")
  exact h rfl

/-- C10: when every candidate's video submission raises a retriable error
(retriable type or resource-exhausted text marker), the video fallback
loop raises the one fixed INTERNAL error — status message 'Failed to
initiate video request.', details 'Internal error occurred.' — whatever
the individual exceptions were: no last exception is recorded or
classified on this path. -/
theorem video_submit_exhaustion_fixed_error
    (submit : String → Except Exn Operation) (chain : List String)
    (h : ∀ m ∈ chain, ∃ e, submit m = .error e
        ∧ retriable_type_or_marker e = true) :
    video_submit_loop submit chain = .error failed_to_initiate_error
    ∧ failed_to_initiate_error.status_message
        = "Failed to initiate video request."
    ∧ failed_to_initiate_error.error_code = Code.INTERNAL
    ∧ failed_to_initiate_error.details = "Internal error occurred." := by
  refine ⟨?_, rfl, rfl, rfl⟩
  induction chain with
  | nil => rfl
  | cons m rest ih =>
      rcases h m (List.mem_cons_self m rest) with ⟨e, herr, hret⟩
      have hrest := ih (fun m' hm' => h m' (List.mem_cons_of_mem m hm'))
      simp only [retriable_type_or_marker, Bool.or_eq_true] at hret
      rcases hret with htyp | hmark
      · simpa [video_submit_loop, herr, htyp] using hrest
      · simp only [video_submit_loop, herr]
        by_cases htyp : is_retriable_type e
        · simpa [htyp] using hrest
        · simpa [htyp, hmark] using hrest

/-- A concrete submit function for the C10 witness: the first candidate
fails with a retriable type, the others with a RESOURCE_EXHAUSTED text
marker on a generic exception. -/
def submit_c10 : String → Except Exn Operation :=
  fun m =>
    if m = "veo-3.0-fast-generate-preview" then
      .error (Exn.genaiServerError "503 overloaded")
    else .error (Exn.other "RESOURCE_EXHAUSTED: quota exceeded")

/-- Witness for C10 on the source's deduplicated Veo chain. -/
theorem video_submit_exhaustion_fixed_error_witness :
    video_submit_loop submit_c10 (video_fall_backs "veo-3.0-fast-generate-preview")
      = .error failed_to_initiate_error :=
  (video_submit_exhaustion_fixed_error submit_c10
    (video_fall_backs "veo-3.0-fast-generate-preview")
    (by
      intro m hm
      simp only [video_fall_backs, VEO_3, VEO_3_FAST, dedup_preserving_order,
        dedup_preserving_order_aux] at hm
      rcases List.mem_cons.mp hm with rfl | hm'
      · exact ⟨Exn.genaiServerError "503 overloaded", rfl, rfl⟩
      · refine ⟨Exn.other "RESOURCE_EXHAUSTED: quota exceeded", ?_, ?_⟩
        · simp only [submit_c10]
          rw [if_neg]
          intro hq
          rw [hq] at hm'
          simp at hm'
        · decide)).1

/-- C3 (amended): the LRO poller returns only once the operation's done
flag is set, and on a completed operation carrying an error payload the
raised error's status code is the payload's code (INTERNAL when the
payload omits one), its details are the payload's message verbatim
('Unknown error' when omitted), and its status message embeds that
message in the fixed template 'No videos generated: <message>.'. -/
theorem video_poll_done_and_error_payload
    (op0 : Operation) (refetches : List Operation) (opF : Operation)
    (hpoll : video_poll_loop op0 refetches = some opF) :
    opF.done = true
    ∧ ∀ payload, opF.error = some payload →
        video_check_response opF = .error
          { status_message :=
              "No videos generated: "
                ++ payload.message.getD "Unknown error" ++ ".",
            error_code := payload.code.getD Code.INTERNAL,
            details := payload.message.getD "Unknown error",
            internal_details := "" } := by
  constructor
  · induction refetches generalizing op0 with
    | nil =>
        by_cases hd : op0.done
        · simp only [video_poll_loop, hd, if_true, Option.some_inj] at hpoll
          rw [← hpoll]
          exact hd
        · simp [video_poll_loop, hd] at hpoll
    | cons next rest ih =>
        by_cases hd : op0.done
        · simp only [video_poll_loop, hd, if_true, Option.some_inj] at hpoll
          rw [← hpoll]
          exact hd
        · simp only [video_poll_loop, hd, if_false] at hpoll
          exact ih next hpoll
  · intro payload hpay
    simp [video_check_response, hpay]

/-- The concrete completed operation whose error payload carries a message
but no code, used by the C3 counterexample and witness. -/
def op_error_no_code : Operation :=
  { done := true,
    error := some { code := none, message := some "quota exceeded" },
    response := none }

/-- Counterexample for C3 as stated: on a completed operation whose error
payload carries the message 'quota exceeded', the raised error's status
message is the templated 'No videos generated: quota exceeded.', not the
payload's message verbatim (only the details field is verbatim). -/
theorem video_poll_error_message_not_verbatim :
    video_poll_loop op_error_no_code [] = some op_error_no_code
    ∧ video_check_response op_error_no_code = .error
        { status_message := "No videos generated: quota exceeded.",
          error_code := Code.INTERNAL,
          details := "quota exceeded",
          internal_details := "" }
    ∧ "No videos generated: quota exceeded." ≠ "quota exceeded" := by
  refine ⟨rfl, rfl, by decide⟩

/-- Witness for the amended C3 at the same concrete operation. -/
theorem video_poll_done_and_error_payload_witness :
    op_error_no_code.done = true
    ∧ video_check_response op_error_no_code = .error
        { status_message := "No videos generated: quota exceeded.",
          error_code := Code.INTERNAL,
          details := "quota exceeded",
          internal_details := "" } := by
  have h := video_poll_done_and_error_payload op_error_no_code []
    op_error_no_code rfl
  exact ⟨h.1, h.2 { code := none, message := some "quota exceeded" } rfl⟩

/-- C4 (amended): on a completed operation with no error payload, the
INVALID_ARGUMENT error carrying the first filter reason as details is
raised exactly when the generated-videos list is non-empty but its first
entry lacks a video payload and filter reasons exist; when the
generated-videos list is entirely empty the fixed INTERNAL backend
no-videos error is raised instead, even if filter reasons are present. -/
theorem video_filtered_reasons_first_entry
    (op : Operation) (resp : OperationResponse)
    (herr : op.error = none) (hresp : op.response = some resp) :
    (∀ gv rest r rs, resp.generated_videos = gv :: rest → gv.video = none →
        resp.rai_media_filtered_reasons = r :: rs →
        video_check_response op = .error
          { status_message := "No videos generated.",
            error_code := Code.INVALID_ARGUMENT,
            details := r,
            internal_details := "" })
    ∧ (resp.generated_videos = [] →
        video_check_response op = .error no_videos_backend_error) := by
  constructor
  · intro gv rest r rs hgv hvid hrai
    simp [video_check_response, herr, hresp, hgv, hvid, hrai]
  · intro hgv
    simp [video_check_response, herr, hresp, hgv]

/-- The concrete completed operation for the C4 counterexample: an empty
generated-videos list but a non-empty filter-reason list. -/
def op_filtered_empty_list : Operation :=
  { done := true,
    error := none,
    response := some
      { generated_videos := [],
        rai_media_filtered_reasons := ["rai: person generation blocked"] } }

/-- Counterexample for C4 as stated: with an entirely empty
generated-videos list and a filter reason present, the code raises the
INTERNAL backend no-videos error with empty details, not INVALID_ARGUMENT
with the first filter reason. -/
theorem video_filtered_reasons_empty_list_counterexample :
    video_check_response op_filtered_empty_list
      = .error no_videos_backend_error
    ∧ no_videos_backend_error.error_code = Code.INTERNAL
    ∧ no_videos_backend_error.error_code ≠ Code.INVALID_ARGUMENT
    ∧ no_videos_backend_error.details ≠ "rai: person generation blocked" := by
  refine ⟨rfl, rfl, by decide, by decide⟩

/-- The concrete completed operation for the C4 witness: one generated
video whose payload is missing, plus a filter reason. -/
def op_filtered_first_entry : Operation :=
  { done := true,
    error := none,
    response := some
      { generated_videos := [{ video := none }],
        rai_media_filtered_reasons := ["rai: person generation blocked"] } }

/-- Witness for the amended C4 at a concrete operation. -/
theorem video_filtered_reasons_first_entry_witness :
    video_check_response op_filtered_first_entry = .error
      { status_message := "No videos generated.",
        error_code := Code.INVALID_ARGUMENT,
        details := "rai: person generation blocked",
        internal_details := "" } :=
  (video_filtered_reasons_first_entry op_filtered_first_entry
      { generated_videos := [{ video := none }],
        rai_media_filtered_reasons := ["rai: person generation blocked"] }
      rfl rfl).1
    { video := none } [] "rai: person generation blocked" [] rfl rfl rfl

/-- C2: for every response in which some candidate's finish reason
indicates verbatim recitation, the Gemini image pipeline raises an
INTERNAL error before any media or text is returned (the outcome is
always an error, never image parts); and whenever the response reaches
the extraction stage (non-empty candidates whose first candidate has
content with parts), that error is exactly the fixed safe recitation
error, raised by the check that runs before image parts are
extracted. -/
theorem gemini_recitation_blocks_output (resp : GenerateContentResponse)
    (hrec : ∃ c ∈ resp.candidates,
        c.finish_reason = some FinishReason.RECITATION) :
    (∃ err, gemini_image_response_pipeline resp = .error err
        ∧ err.error_code = Code.INTERNAL)
    ∧ (∀ c0 rest content, resp.candidates = c0 :: rest →
        c0.content = some content → content.parts ≠ [] →
        gemini_image_response_pipeline resp = .error recitation_error)
    ∧ recitation_error.error_code = Code.INTERNAL := by
  have hany : resp.candidates.any
      (fun c => c.finish_reason = some FinishReason.RECITATION) = true := by
    rcases hrec with ⟨c, hc, hfin⟩
    exact List.any_eq_true.mpr ⟨c, hc, by simp [hfin]⟩
  have hval : validate_candidate_recitation resp = .error recitation_error := by
    simp [validate_candidate_recitation, hany]
  have hblock : ∀ c0 rest content, resp.candidates = c0 :: rest →
      c0.content = some content → content.parts ≠ [] →
      gemini_image_response_pipeline resp = .error recitation_error := by
    intro c0 rest content hcand hcont hparts
    simp [gemini_image_response_pipeline, hcand, hcont, hparts, hval]
  refine ⟨?_, hblock, rfl⟩
  cases hcand : resp.candidates with
  | nil => exact ⟨no_candidates_error, by simp [gemini_image_response_pipeline, hcand], rfl⟩
  | cons c0 rest =>
      cases hcont : c0.content with
      | none =>
          exact ⟨no_content_parts_error,
            by simp [gemini_image_response_pipeline, hcand, hcont], rfl⟩
      | some content =>
          by_cases hparts : content.parts = []
          · exact ⟨no_content_parts_error,
              by simp [gemini_image_response_pipeline, hcand, hcont, hparts], rfl⟩
          · exact ⟨recitation_error, hblock c0 rest content hcand hcont hparts,
              rfl⟩

/-- The concrete recitation-flagged response for the C2 witness: one
candidate with an inline image part whose finish reason is RECITATION. -/
def resp_recitation : GenerateContentResponse :=
  { candidates :=
      [{ content := some
           { parts := [{ text := none,
                         inline_data := some { data := [9, 9],
                                               mime_type := some "image/png" } }] },
         finish_reason := some FinishReason.RECITATION }] }

/-- Witness for C2: the recitation-flagged response is rejected with the
fixed safe error even though an image part is present. -/
theorem gemini_recitation_blocks_output_witness :
    gemini_image_response_pipeline resp_recitation = .error recitation_error :=
  (gemini_recitation_blocks_output resp_recitation
      ⟨{ content := some
           { parts := [{ text := none,
                         inline_data := some { data := [9, 9],
                                               mime_type := some "image/png" } }] },
         finish_reason := some FinishReason.RECITATION },
       List.mem_cons_self _ _, rfl⟩).2.1
    _ [] _ rfl rfl (by decide)

/-- C9 (amended): a caller-supplied aspect ratio is reproduced verbatim in
the vendor config by both image paths (Gemini `image_config` and Imagen
`GenerateImagesConfig`) and by the per-candidate video config; the video
entry point, however, first coerces every ratio other than 16:9 and 9:16
to 16:9, so 16:9 and 9:16 survive it unchanged while '4:3' reaches the
vendor config as '16:9'. -/
theorem aspect_ratio_propagation :
    (∀ ar : AspectRatio,
        (gemini_image_config ar).image_config.aspect_ratio = ar.value)
    ∧ (∀ ar : AspectRatio, ∀ lvl,
        (imagen_generate_config ar lvl).aspect_ratio = ar.value)
    ∧ AspectRatio.RATIO_4_3.value = "4:3"
    ∧ (∀ ar : AspectRatio, ∀ d : Bool, ∀ dur : Nat,
        (video_candidate_config ar d dur).aspect_ratio = ar.value)
    ∧ (∀ d : Bool, ∀ dur : Nat,
        (generate_video_entry_config AspectRatio.RATIO_16_9 d dur).aspect_ratio
            = "16:9"
        ∧ (generate_video_entry_config AspectRatio.RATIO_9_16 d dur).aspect_ratio
            = "9:16"
        ∧ (generate_video_entry_config AspectRatio.RATIO_4_3 d dur).aspect_ratio
            = "16:9") := by
  refine ⟨fun ar => rfl, fun ar lvl => rfl, rfl, fun ar d dur => rfl,
    fun d dur => ⟨?_, ?_, ?_⟩⟩ <;>
    simp [generate_video_entry_config, video_entry_aspect_ratio,
      video_candidate_config, AspectRatio.value]

/-- Counterexample for C9 as stated: '4:3' supplied to the video entry
point is not reproduced — the coercion in `generate_video_via_vertex_ai`
rewrites it to '16:9' before the vendor config is built. -/
theorem video_aspect_ratio_not_reproduced :
    (generate_video_entry_config AspectRatio.RATIO_4_3 false 8).aspect_ratio
        = "16:9"
    ∧ (generate_video_entry_config AspectRatio.RATIO_4_3 false 8).aspect_ratio
        ≠ AspectRatio.RATIO_4_3.value := by
  constructor
  · rfl
  · intro h
    simp [generate_video_entry_config, video_entry_aspect_ratio,
      video_candidate_config, AspectRatio.value] at h

end OpalAdk
